import Mathlib

/-!
Verification of the MA-Buybacks delegated TWAP execution engine.

The definitions below are a shallow embedding of the session lifecycle
module (`src/lib/sessionKey.ts`), the session API route handlers
(POST / PATCH / DELETE of `/api/session`) and the trade-execution path
(`executeSwap` in `src/lib/tokenData.ts`, `executeTrade` in the cron
route).  The persistent store is modelled as a list of sessions; a
Supabase `update ... eq(id)` is modelled as a map over the rows whose id
matches; JavaScript epoch-millisecond timestamps are `Int`; JavaScript
numbers carrying money amounts are `Rat`.
-/

namespace MABuybacks

/-- Status of a single trade attempt (`TradeRecord.status` in the source). -/
inductive TradeStatus
  | pending
  | success
  | failed
  deriving DecidableEq, Repr

/-- Status of a TWAP session (`TWAPSession.status` in the source). -/
inductive SessionStatus
  | awaiting_deposit
  | active
  | paused
  | completed
  | failed
  | cancelled
  deriving DecidableEq, Repr

/-- One attempted trade within a session (interface `TradeRecord`). -/
structure TradeRecord where
  id : String
  timestamp : Int
  amountIn : Rat
  amountOut : Rat
  swapTxHash : String
  transferTxHash : Option String
  status : TradeStatus
  error : Option String
  deriving DecidableEq, Repr

/-- The central session entity (interface `TWAPSession`). -/
structure TWAPSession where
  id : String
  userAddress : String
  depositTxHash : Option String
  depositedAmount : Rat
  depositConfirmed : Bool
  totalAmount : Rat
  amountPerTrade : Rat
  numTrades : Nat
  tradesCompleted : Nat
  intervalMinutes : Nat
  slippageBps : Nat
  status : SessionStatus
  createdAt : Int
  startedAt : Option Int
  nextTradeAt : Option Int
  expiresAt : Int
  totalMoveReceived : Rat
  trades : List TradeRecord
  lastError : Option String
  deriving DecidableEq, Repr

/-- Parameters of `createSession` (interface `CreateSessionParams`);
`slippageBps` is optional in the source and defaults to 100. -/
structure CreateSessionParams where
  userAddress : String
  totalAmount : Rat
  numTrades : Nat
  intervalMinutes : Nat
  slippageBps : Option Nat
  deriving DecidableEq, Repr

/-- The persisted session store, one row per session. -/
abbrev SessionStore := List TWAPSession

/-- Model of `getSession(sessionId)`: fetch the row whose id matches. -/
def getSession (store : SessionStore) (sessionId : String) : Option TWAPSession :=
  store.find? (fun s => decide (s.id = sessionId))

/-- A Supabase `update(fields).eq("id", sessionId)`: apply the field
update to every row whose id matches, leaving the rest untouched. -/
def updateSession (store : SessionStore) (sessionId : String)
    (f : TWAPSession → TWAPSession) : SessionStore :=
  store.map (fun s => if s.id = sessionId then f s else s)

/-- Model of `createSession(params)` (sessionKey.ts lines 155-203): builds the fresh
session record.  `now` stands for `Date.now()` and `newId` for the
generated `crypto.randomUUID()`. -/
def createSession (params : CreateSessionParams) (now : Int) (newId : String) :
    TWAPSession :=
  { id := newId
    userAddress := params.userAddress
    depositTxHash := none
    depositedAmount := 0
    depositConfirmed := false
    totalAmount := params.totalAmount
    amountPerTrade := params.totalAmount / (params.numTrades : Rat)
    numTrades := params.numTrades
    tradesCompleted := 0
    intervalMinutes := params.intervalMinutes
    slippageBps := params.slippageBps.getD 100
    status := SessionStatus.awaiting_deposit
    createdAt := now
    startedAt := none
    nextTradeAt := none
    expiresAt := now + ((params.numTrades * params.intervalMinutes + 30) : Int) * 60 * 1000
    totalMoveReceived := 0
    trades := []
    lastError := none }

/-- Model of `confirmDeposit(sessionId, txHash, amount)` (sessionKey.ts lines
208-242): fetches the session, sets the deposit fields, marks it active
with an immediate `nextTradeAt`, and persists exactly those six columns
on the matching row.  Returns the updated session and the new store. -/
def confirmDeposit (store : SessionStore) (sessionId : String) (txHash : String)
    (amount : Rat) (now : Int) : Option TWAPSession × SessionStore :=
  match getSession store sessionId with
  | none => (none, store)
  | some session =>
    let setFields : TWAPSession → TWAPSession := fun s =>
      { s with
        depositTxHash := some txHash
        depositedAmount := amount
        depositConfirmed := true
        status := SessionStatus.active
        startedAt := some now
        nextTradeAt := some now }
    (some (setFields session), updateSession store sessionId setFields)

/-- The filter predicate of `getActiveSessionsForExecution()` (sessionKey.ts
lines 290-315; identical predicate spelled out in the KV variant):
active, deposit confirmed, a due `nextTradeAt`, trades remaining, and not
yet expired. -/
def dueForExecution (now : Int) (s : TWAPSession) : Bool :=
  s.status == SessionStatus.active &&
  s.depositConfirmed &&
  (match s.nextTradeAt with
   | some t => decide (t ≤ now)
   | none => false) &&
  decide (s.tradesCompleted < s.numTrades) &&
  decide (s.expiresAt > now)

/-- Model of `getActiveSessionsForExecution()`: the due-session scan. -/
def getActiveSessionsForExecution (store : SessionStore) (now : Int) :
    SessionStore :=
  store.filter (dueForExecution now)

/-- ASCII lower-casing of one character, the behaviour of JavaScript
`toLowerCase()` on the ASCII addresses this code compares. -/
def asciiLower (c : Char) : Char :=
  if (('A' ≤ c) && (c ≤ 'Z')) then Char.ofNat (c.toNat + 32) else c

/-- Result of `s.toLowerCase()` on an ASCII string, as a character list. -/
def lowerAscii (s : String) : List Char :=
  s.toList.map asciiLower

/-- Model of `getSessionsByUser(userAddress)` (case-insensitive match on the user
address, `ilike` in the Supabase variant / `toLowerCase` comparison in the
in-memory variant). -/
def getSessionsByUser (store : SessionStore) (userAddress : String) :
    SessionStore :=
  store.filter (fun s => lowerAscii s.userAddress == lowerAscii userAddress)

/-- Model of `deleteSession(sessionId)` (sessionKey.ts lines 342-359): a logical
delete — sets `status` to `cancelled` on the matching row and changes
nothing else. -/
def deleteSession (store : SessionStore) (sessionId : String) : SessionStore :=
  updateSession store sessionId
    (fun s => { s with status := SessionStatus.cancelled })

/-- JavaScript truthiness of `trade.error` followed by the fallback:
`trade.error || "Trade failed"` (the empty string is falsy). -/
def errorOrDefault (e : Option String) : String :=
  match e with
  | some m => if m == "" then "Trade failed" else m
  | none => "Trade failed"

/-- The pure per-session effect of `recordTrade` (sessionKey.ts lines
364-414): append the trade, then branch on its status exactly as the
source does. -/
def recordTradeUpdate (session : TWAPSession) (trade : TradeRecord) (now : Int) :
    TWAPSession :=
  let s0 := { session with trades := session.trades ++ [trade] }
  match trade.status with
  | TradeStatus.success =>
    let s1 := { s0 with
      tradesCompleted := s0.tradesCompleted + 1
      totalMoveReceived := s0.totalMoveReceived + trade.amountOut
      lastError := none }
    if s1.numTrades ≤ s1.tradesCompleted then
      { s1 with status := SessionStatus.completed, nextTradeAt := none }
    else
      { s1 with nextTradeAt := some (now + (s1.intervalMinutes : Int) * 60 * 1000) }
  | TradeStatus.failed =>
    let s1 := { s0 with lastError := some (errorOrDefault trade.error) }
    if s1.tradesCompleted < s1.numTrades then
      { s1 with nextTradeAt := some (now + (s1.intervalMinutes : Int) * 60 * 1000) }
    else s1
  | TradeStatus.pending => s0

/-- Model of `recordTrade(sessionId, trade)`: fetch, apply the update, and persist
exactly the six columns the source writes (`trades`, `trades_completed`,
`total_move_received`, `status`, `next_trade_at`, `last_error`). -/
def recordTrade (store : SessionStore) (sessionId : String) (trade : TradeRecord)
    (now : Int) : Option TWAPSession × SessionStore :=
  match getSession store sessionId with
  | none => (none, store)
  | some session =>
    let updated := recordTradeUpdate session trade now
    (some updated,
     updateSession store sessionId (fun s =>
       { s with
         trades := updated.trades
         tradesCompleted := updated.tradesCompleted
         totalMoveReceived := updated.totalMoveReceived
         status := updated.status
         nextTradeAt := updated.nextTradeAt
         lastError := updated.lastError }))

/-- The sweep predicate of `cleanupExpiredSessions()` (sessionKey.ts lines
419-441): past expiry and not already in a terminal status. -/
def isExpiredSweepTarget (now : Int) (s : TWAPSession) : Bool :=
  decide (s.expiresAt < now) &&
  !(s.status == SessionStatus.completed) &&
  !(s.status == SessionStatus.failed) &&
  !(s.status == SessionStatus.cancelled)

/-- Model of `cleanupExpiredSessions()`: marks every sweep target failed with
`lastError = "Session expired"` and returns the number of rows affected
together with the new store. -/
def cleanupExpiredSessions (store : SessionStore) (now : Int) :
    Nat × SessionStore :=
  (store.countP (isExpiredSweepTarget now),
   store.map (fun s =>
     if isExpiredSweepTarget now s then
       { s with status := SessionStatus.failed, lastError := some ("Session expired") }
     else s))

/-! ### Session API route handlers (`/api/session`, src/unnamed/part_010) -/

/-- JavaScript truthiness of an optional string (absent or empty is falsy). -/
def jsTruthyStr (s : Option String) : Bool :=
  match s with
  | none => false
  | some v => !(v == "")

/-- The ownership guard of the DELETE and PATCH handlers:
`userAddress && session.userAddress.toLowerCase() !== userAddress.toLowerCase()`.
Note the guard is skipped entirely when the caller supplies no (or an
empty) `userAddress`. -/
def ownershipDenied (claimed : Option String) (session : TWAPSession) : Bool :=
  match claimed with
  | none => false
  | some a =>
    if a == "" then false
    else !(lowerAscii session.userAddress == lowerAscii a)

/-- One hexadecimal digit, as matched by `[a-fA-F0-9]`. -/
def isHexDigit (c : Char) : Bool :=
  c.isDigit || (('a' ≤ c) && (c ≤ 'f')) || (('A' ≤ c) && (c ≤ 'F'))

/-- The transaction-hash validation regex of the PATCH handler:
`/^0x[a-fA-F0-9]{64}$/`. -/
def isValidTxHash (h : String) : Bool :=
  match h.toList with
  | '0' :: 'x' :: rest => rest.length == 64 && rest.all isHexDigit
  | _ => false

/-- Result of a route handler: HTTP status code, the session object of the
response body (when one is returned), and the store after the call. -/
structure HandlerResult where
  http : Nat
  body : Option TWAPSession
  store : SessionStore
  deriving DecidableEq, Repr

/-- The JSON body of a PATCH `/api/session` request. -/
structure PatchBody where
  sessionId : String
  action : String
  txHash : Option String
  amount : Option Rat
  userAddress : Option String
  deriving DecidableEq, Repr

/-- The PATCH `/api/session` handler (part_010 lines 289-391): look the
session up, run the ownership guard, then dispatch on the action.
`confirm_deposit` validates the tx hash, requires status exactly
`awaiting_deposit`, and delegates to `confirmDeposit`; `pause` and
`resume` mutate only the fetched session object and issue no store
update. -/
def patchSession (store : SessionStore) (body : PatchBody) (now : Int) :
    HandlerResult :=
  if body.sessionId == "" then ⟨400, none, store⟩
  else
    match getSession store body.sessionId with
    | none => ⟨404, none, store⟩
    | some session =>
      if ownershipDenied body.userAddress session then ⟨403, none, store⟩
      else if body.action == "confirm_deposit" then
        if !(jsTruthyStr body.txHash) then ⟨400, none, store⟩
        else
          let h := body.txHash.getD ("")
          if !(isValidTxHash h) then ⟨400, none, store⟩
          else if !(session.status == SessionStatus.awaiting_deposit) then
            ⟨400, none, store⟩
          else
            let depositAmount :=
              match body.amount with
              | some a => if a == 0 then session.totalAmount else a
              | none => session.totalAmount
            let r := confirmDeposit store body.sessionId h depositAmount now
            ⟨200, r.1, r.2⟩
      else if body.action == "pause" then
        if !(session.status == SessionStatus.active) then ⟨400, none, store⟩
        else ⟨200, some { session with status := SessionStatus.paused }, store⟩
      else if body.action == "resume" then
        if !(session.status == SessionStatus.paused) then ⟨400, none, store⟩
        else
          ⟨200,
           some { session with status := SessionStatus.active, nextTradeAt := some now },
           store⟩
      else ⟨400, none, store⟩

/-- The DELETE `/api/session` handler (part_010 lines 235-284): requires a
session id, looks the session up, runs the ownership guard, then performs
the logical delete (status := cancelled). -/
def deleteSessionHandler (store : SessionStore) (sessionId : Option String)
    (userAddress : Option String) : HandlerResult :=
  if !(jsTruthyStr sessionId) then ⟨400, none, store⟩
  else
    let sid := sessionId.getD ("")
    match getSession store sid with
    | none => ⟨404, none, store⟩
    | some session =>
      if ownershipDenied userAddress session then ⟨403, none, store⟩
      else ⟨200, none, deleteSession store sid⟩

/-- Result of the POST `/api/session` handler after validation: whether an
existing session was returned, the session of the response, and the store
after the call. -/
structure PostResult where
  existing : Bool
  session : TWAPSession
  store : SessionStore
  deriving DecidableEq, Repr

/-- Whether a session blocks creation of a new one for the same user
(part_010 line 115): status `active` or `awaiting_deposit`. -/
def blocksNewSession (s : TWAPSession) : Bool :=
  s.status == SessionStatus.active || s.status == SessionStatus.awaiting_deposit

/-- The creation path of the POST `/api/session` handler after input
validation (part_010 lines 111-145): if the user already has a session in
`active` or `awaiting_deposit`, return it and leave the store alone;
otherwise create a fresh session and insert it. -/
def postSession (store : SessionStore) (params : CreateSessionParams)
    (now : Int) (newId : String) : PostResult :=
  match (getSessionsByUser store params.userAddress).find? blocksNewSession with
  | some s => ⟨true, s, store⟩
  | none =>
    let session := createSession params now newId
    ⟨false, session, store ++ [session]⟩

/-! ### Trade execution (`executeSwap` in src/lib/tokenData.ts lines
461-532, `executeTrade` in the cron route src/unnamed/part_008) -/

/-- Result of `executeSwap` as returned to `executeTrade`. -/
structure ExecuteSwapResult where
  swapTxHash : String
  transferTxHash : String
  moveReceived : Rat
  deriving DecidableEq, Repr

/-- The arithmetic core of `executeSwap`: from the quoted raw destination
amount (`dstAmount`, 8 decimals) compute `expectedMoveOut`, transfer
`expectedMoveOut * 0.999` to the user, and return the full
`expectedMoveOut` as `moveReceived`.  The first component is the amount
handed to `transferMoveToUser`; the tx hashes of the two on-chain legs
are opaque inputs. -/
def executeSwap (quotedDstAmount : Nat) (swapTxHash transferTxHash : String) :
    Rat × ExecuteSwapResult :=
  let expectedMoveOut : Rat := (quotedDstAmount : Rat) / 100000000
  let transferAmount : Rat := expectedMoveOut * (999 / 1000)
  (transferAmount,
   { swapTxHash := swapTxHash
     transferTxHash := transferTxHash
     moveReceived := expectedMoveOut })

/-- The raw on-chain unit count submitted by `transferMoveToUser`:
`Math.floor(amount * 1e8)`. -/
def transferMoveToUserRawAmount (amount : Rat) : Int :=
  Int.floor (amount * 100000000)

/-- The trade record built by `executeTrade` on the success path
(part_008 lines 195-217): `amountIn` is the planned per-trade spend and
`amountOut` is `result.moveReceived`. -/
def executeTradeSuccessRecord (session : TWAPSession) (result : ExecuteSwapResult)
    (now : Int) : TradeRecord :=
  { id := "trade-" ++ session.id ++ "-" ++ toString (session.tradesCompleted + 1)
    timestamp := now
    amountIn := session.amountPerTrade
    amountOut := result.moveReceived
    swapTxHash := result.swapTxHash
    transferTxHash := some result.transferTxHash
    status := TradeStatus.success
    error := none }

/-! ### Concrete sample data used by the witnesses -/

/-- A concrete active session with a due `nextTradeAt`. -/
def sampleActive : TWAPSession :=
  { id := "sid-1"
    userAddress := "0xAbC1"
    depositTxHash := some ("0xdeadbeef")
    depositedAmount := 5
    depositConfirmed := true
    totalAmount := 5
    amountPerTrade := 1
    numTrades := 5
    tradesCompleted := 2
    intervalMinutes := 1
    slippageBps := 100
    status := SessionStatus.active
    createdAt := 0
    startedAt := some 10
    nextTradeAt := some 500
    expiresAt := 1000000
    totalMoveReceived := 2
    trades := []
    lastError := none }

/-- A concrete successful trade for the sample session. -/
def sampleSuccessTrade : TradeRecord :=
  { id := "t1"
    timestamp := 600
    amountIn := 1
    amountOut := 1
    swapTxHash := "0xswap"
    transferTxHash := some ("0xtransfer")
    status := TradeStatus.success
    error := none }

/-! ### Store helper lemmas -/

/-- Looking a session up after an id-preserving row update returns the
updated row. -/
theorem getSession_updateSession (store : SessionStore) (sessionId : String)
    (f : TWAPSession → TWAPSession) (hf : ∀ s, (f s).id = s.id) :
    getSession (updateSession store sessionId f) sessionId =
      (getSession store sessionId).map f := by
  induction store with
  | nil => rfl
  | cons a l ih =>
    unfold getSession updateSession at *
    simp only [List.map_cons]
    by_cases h : a.id = sessionId
    · have hd : decide (a.id = sessionId) = true := by simp [h]
      have hfd : decide ((f a).id = sessionId) = true := by simp [hf a, h]
      rw [if_pos h, List.find?_cons, hfd, List.find?_cons, hd]
      rfl
    · have hd : decide (a.id = sessionId) = false := by simp [h]
      rw [if_neg h, List.find?_cons, hd, List.find?_cons, hd]
      exact ih

/-! ### Claim theorems -/

/-- C1: for every stored session set and every current time `now`,
`getActiveSessionsForExecution` returns exactly the sessions satisfying
status active, deposit confirmed, a non-null `nextTradeAt` that is ≤ now,
trades remaining, and `expiresAt > now`; since membership forces
`status = active`, a paused, cancelled, failed, or completed session is
never returned regardless of its `nextTradeAt`. -/
theorem C1_getActiveSessionsForExecution_exact (store : SessionStore) (now : Int)
    (s : TWAPSession) :
    s ∈ getActiveSessionsForExecution store now ↔
      s ∈ store ∧ s.status = SessionStatus.active ∧ s.depositConfirmed = true ∧
        (∃ t, s.nextTradeAt = some t ∧ t ≤ now) ∧
        s.tradesCompleted < s.numTrades ∧ now < s.expiresAt := by
  unfold getActiveSessionsForExecution dueForExecution
  rw [List.mem_filter]
  cases h : s.nextTradeAt with
  | none => simp [h]
  | some t =>
    simp only [h, Bool.and_eq_true, beq_iff_eq, decide_eq_true_eq,
      Option.some.injEq, gt_iff_lt]
    constructor
    · rintro ⟨hm, ⟨⟨⟨⟨hst, hdep⟩, hdue⟩, hrem⟩, hexp⟩⟩
      exact ⟨hm, hst, hdep, ⟨t, rfl, hdue⟩, hrem, hexp⟩
    · rintro ⟨hm, hst, hdep, ⟨u, hu, hdue⟩, hrem, hexp⟩
      cases hu
      exact ⟨hm, ⟨⟨⟨⟨hst, hdep⟩, hdue⟩, hrem⟩, hexp⟩⟩

/-- Witness for C1: the sample active session is returned by the scan at
time 1000. -/
theorem C1_getActiveSessionsForExecution_exact_witness :
    sampleActive ∈ getActiveSessionsForExecution [sampleActive] 1000 :=
  (C1_getActiveSessionsForExecution_exact [sampleActive] 1000 sampleActive).mpr
    ⟨by decide, by decide, by decide, ⟨500, by decide, by decide⟩, by decide, by decide⟩

/-- C2: recording a successful trade on an existing session appends the
trade, increments `tradesCompleted`, adds `trade.amountOut` to
`totalMoveReceived`, clears `lastError`, and then either completes the
session (`status = completed`, `nextTradeAt = null`) when
`tradesCompleted` has reached `numTrades`, or schedules
`nextTradeAt = now + intervalMinutes*60000`; every other session field is
unchanged, and the updated session is what the store then holds. -/
theorem C2_recordTrade_success (store : SessionStore) (sessionId : String)
    (session : TWAPSession) (trade : TradeRecord) (now : Int)
    (hs : getSession store sessionId = some session)
    (ht : trade.status = TradeStatus.success) :
    ∃ u, (recordTrade store sessionId trade now).1 = some u ∧
      u.trades = session.trades ++ [trade] ∧
      u.tradesCompleted = session.tradesCompleted + 1 ∧
      u.totalMoveReceived = session.totalMoveReceived + trade.amountOut ∧
      u.lastError = none ∧
      (if session.numTrades ≤ session.tradesCompleted + 1 then
        u.status = SessionStatus.completed ∧ u.nextTradeAt = none
      else
        u.status = session.status ∧
        u.nextTradeAt = some (now + (session.intervalMinutes : Int) * 60 * 1000)) ∧
      u.id = session.id ∧
      u.userAddress = session.userAddress ∧
      u.depositTxHash = session.depositTxHash ∧
      u.depositedAmount = session.depositedAmount ∧
      u.depositConfirmed = session.depositConfirmed ∧
      u.totalAmount = session.totalAmount ∧
      u.amountPerTrade = session.amountPerTrade ∧
      u.numTrades = session.numTrades ∧
      u.intervalMinutes = session.intervalMinutes ∧
      u.slippageBps = session.slippageBps ∧
      u.createdAt = session.createdAt ∧
      u.startedAt = session.startedAt ∧
      u.expiresAt = session.expiresAt ∧
      getSession (recordTrade store sessionId trade now).2 sessionId = some u := by
  refine ⟨recordTradeUpdate session trade now, ?_⟩
  have hpersist :
      getSession (recordTrade store sessionId trade now).2 sessionId =
        some (recordTradeUpdate session trade now) := by
    simp only [recordTrade, hs]
    rw [getSession_updateSession store sessionId
      (fun s =>
        { s with
          trades := (recordTradeUpdate session trade now).trades
          tradesCompleted := (recordTradeUpdate session trade now).tradesCompleted
          totalMoveReceived := (recordTradeUpdate session trade now).totalMoveReceived
          status := (recordTradeUpdate session trade now).status
          nextTradeAt := (recordTradeUpdate session trade now).nextTradeAt
          lastError := (recordTradeUpdate session trade now).lastError })
      (fun s => rfl), hs]
    have hsame :
        recordTradeUpdate session trade now =
          { session with
            trades := (recordTradeUpdate session trade now).trades
            tradesCompleted := (recordTradeUpdate session trade now).tradesCompleted
            totalMoveReceived := (recordTradeUpdate session trade now).totalMoveReceived
            status := (recordTradeUpdate session trade now).status
            nextTradeAt := (recordTradeUpdate session trade now).nextTradeAt
            lastError := (recordTradeUpdate session trade now).lastError } := by
      unfold recordTradeUpdate
      rw [ht]
      by_cases hc : session.numTrades ≤ session.tradesCompleted + 1 <;> simp [hc]
    exact congrArg some hsame.symm
  refine ⟨?_, ?_, ?_, ?_, ?_, ?_, ?_, ?_, ?_, ?_, ?_, ?_, ?_, ?_, ?_, ?_, ?_, ?_, ?_, hpersist⟩
  all_goals
    simp only [recordTrade, hs, recordTradeUpdate, ht]
  all_goals
    by_cases hc : session.numTrades ≤ session.tradesCompleted + 1 <;> simp [hc]

/-- Witness for C2: a successful trade on the sample session (2 of 5
trades done) advances `tradesCompleted` to 3 and reschedules. -/
theorem C2_recordTrade_success_witness :
    getSession [sampleActive] ("sid-1") = some sampleActive ∧
    sampleSuccessTrade.status = TradeStatus.success ∧
    ∃ u, (recordTrade [sampleActive] ("sid-1") sampleSuccessTrade 600).1 = some u ∧
      u.tradesCompleted = 3 ∧ u.totalMoveReceived = 3 := by
  refine ⟨by decide, by decide, ?_⟩
  obtain ⟨u, h1, _, h3, h4, _⟩ :=
    C2_recordTrade_success [sampleActive] ("sid-1") sampleActive sampleSuccessTrade
      600 (by decide) (by decide)
  refine ⟨u, h1, ?_, ?_⟩
  · rw [h3]; decide
  · rw [h4]; norm_num [sampleActive, sampleSuccessTrade]

/-- A concrete failed trade carrying an error message. -/
def sampleFailedTrade : TradeRecord :=
  { id := "t2"
    timestamp := 600
    amountIn := 1
    amountOut := 0
    swapTxHash := ""
    transferTxHash := none
    status := TradeStatus.failed
    error := some ("quote failed") }

/-- C3: recording a failed trade on a session with trades remaining
appends the trade, sets `lastError` to the trade's error message, leaves
`tradesCompleted`, `totalMoveReceived` and `status` unchanged, and
advances `nextTradeAt` to `now + intervalMinutes*60000`, so a failure
neither stalls the schedule nor triggers an immediate retry; every other
session field is unchanged and the updated session is persisted. -/
theorem C3_recordTrade_failed (store : SessionStore) (sessionId : String)
    (session : TWAPSession) (trade : TradeRecord) (now : Int) (msg : String)
    (hs : getSession store sessionId = some session)
    (ht : trade.status = TradeStatus.failed)
    (he : trade.error = some msg) (hm : msg ≠ "")
    (hrem : session.tradesCompleted < session.numTrades) :
    ∃ u, (recordTrade store sessionId trade now).1 = some u ∧
      u.trades = session.trades ++ [trade] ∧
      u.lastError = some msg ∧
      u.tradesCompleted = session.tradesCompleted ∧
      u.totalMoveReceived = session.totalMoveReceived ∧
      u.status = session.status ∧
      u.nextTradeAt = some (now + (session.intervalMinutes : Int) * 60 * 1000) ∧
      u.id = session.id ∧
      u.userAddress = session.userAddress ∧
      u.depositTxHash = session.depositTxHash ∧
      u.depositedAmount = session.depositedAmount ∧
      u.depositConfirmed = session.depositConfirmed ∧
      u.totalAmount = session.totalAmount ∧
      u.amountPerTrade = session.amountPerTrade ∧
      u.numTrades = session.numTrades ∧
      u.intervalMinutes = session.intervalMinutes ∧
      u.slippageBps = session.slippageBps ∧
      u.createdAt = session.createdAt ∧
      u.startedAt = session.startedAt ∧
      u.expiresAt = session.expiresAt ∧
      getSession (recordTrade store sessionId trade now).2 sessionId = some u := by
  have herr : errorOrDefault trade.error = msg := by
    have hb : (msg == "") = false := beq_false_of_ne hm
    rw [he]
    simp [errorOrDefault, hb]
  refine ⟨recordTradeUpdate session trade now, ?_⟩
  have hpersist :
      getSession (recordTrade store sessionId trade now).2 sessionId =
        some (recordTradeUpdate session trade now) := by
    simp only [recordTrade, hs]
    rw [getSession_updateSession store sessionId
      (fun s =>
        { s with
          trades := (recordTradeUpdate session trade now).trades
          tradesCompleted := (recordTradeUpdate session trade now).tradesCompleted
          totalMoveReceived := (recordTradeUpdate session trade now).totalMoveReceived
          status := (recordTradeUpdate session trade now).status
          nextTradeAt := (recordTradeUpdate session trade now).nextTradeAt
          lastError := (recordTradeUpdate session trade now).lastError })
      (fun s => rfl), hs]
    have hsame :
        recordTradeUpdate session trade now =
          { session with
            trades := (recordTradeUpdate session trade now).trades
            tradesCompleted := (recordTradeUpdate session trade now).tradesCompleted
            totalMoveReceived := (recordTradeUpdate session trade now).totalMoveReceived
            status := (recordTradeUpdate session trade now).status
            nextTradeAt := (recordTradeUpdate session trade now).nextTradeAt
            lastError := (recordTradeUpdate session trade now).lastError } := by
      unfold recordTradeUpdate
      rw [ht]
      simp [hrem]
    exact congrArg some hsame.symm
  refine ⟨?_, ?_, ?_, ?_, ?_, ?_, ?_, ?_, ?_, ?_, ?_, ?_, ?_, ?_, ?_, ?_, ?_, ?_, ?_, ?_, hpersist⟩
  all_goals
    simp only [recordTrade, hs, recordTradeUpdate, ht]
  all_goals
    simp [hrem, herr]

/-- Witness for C3: a failed trade on the sample session (2 of 5 trades
done) sets `lastError`, keeps `tradesCompleted` at 2, and reschedules one
interval later. -/
theorem C3_recordTrade_failed_witness :
    getSession [sampleActive] ("sid-1") = some sampleActive ∧
    sampleFailedTrade.status = TradeStatus.failed ∧
    sampleActive.tradesCompleted < sampleActive.numTrades ∧
    ∃ u, (recordTrade [sampleActive] ("sid-1") sampleFailedTrade 600).1 = some u ∧
      u.lastError = some ("quote failed") ∧ u.tradesCompleted = 2 ∧
      u.nextTradeAt = some 60600 := by
  refine ⟨by decide, by decide, by decide, ?_⟩
  obtain ⟨u, h1, _, h3, h4, _, _, h7, _⟩ :=
    C3_recordTrade_failed [sampleActive] ("sid-1") sampleActive sampleFailedTrade
      600 ("quote failed") (by decide) (by decide) (by decide) (by decide) (by decide)
  refine ⟨u, h1, h3, ?_, ?_⟩
  · rw [h4]; decide
  · rw [h7]; decide

/-- A concrete session awaiting its deposit. -/
def sampleAwaiting : TWAPSession :=
  { id := "sid-2"
    userAddress := "0xAbC1"
    depositTxHash := none
    depositedAmount := 0
    depositConfirmed := false
    totalAmount := 5
    amountPerTrade := 1
    numTrades := 5
    tradesCompleted := 0
    intervalMinutes := 1
    slippageBps := 100
    status := SessionStatus.awaiting_deposit
    createdAt := 0
    startedAt := none
    nextTradeAt := none
    expiresAt := 1000000
    totalMoveReceived := 0
    trades := []
    lastError := none }

/-- A syntactically valid 64-hex-character transaction hash. -/
def sampleTxHash : String :=
  "0xaaaaaaaaaaaaaaaaaaaaaaaaaaaaaaaaaaaaaaaaaaaaaaaaaaaaaaaaaaaaaaaa"

/-- Applying `confirmDeposit` to an existing session returns the session with the
six deposit-activation fields set, and persists exactly that session. -/
theorem confirmDeposit_spec (store : SessionStore) (sid txh : String)
    (amt : Rat) (now : Int) (session : TWAPSession)
    (hg : getSession store sid = some session) :
    (confirmDeposit store sid txh amt now).1 =
      some { session with
        depositTxHash := some txh
        depositedAmount := amt
        depositConfirmed := true
        status := SessionStatus.active
        startedAt := some now
        nextTradeAt := some now } ∧
    getSession (confirmDeposit store sid txh amt now).2 sid =
      some { session with
        depositTxHash := some txh
        depositedAmount := amt
        depositConfirmed := true
        status := SessionStatus.active
        startedAt := some now
        nextTradeAt := some now } := by
  constructor
  · simp [confirmDeposit, hg]
  · simp only [confirmDeposit, hg]
    rw [getSession_updateSession store sid
      (fun s =>
        { s with
          depositTxHash := some txh
          depositedAmount := amt
          depositConfirmed := true
          status := SessionStatus.active
          startedAt := some now
          nextTradeAt := some now })
      (fun s => rfl), hg]
    rfl

/-- C4: the awaiting_deposit → active transition fires through the PATCH
confirm_deposit action only when the session's status is exactly
`awaiting_deposit`, and then sets `depositConfirmed = true`,
`startedAt = now` and `nextTradeAt = now`; in any other status the
request is rejected (HTTP 400) and the store is unchanged; and none of
the other operations (pause, resume, recordTrade, cancel, the expiration
sweep) can take a session from `awaiting_deposit` to `active`. -/
theorem C4_confirm_deposit_transition :
    (∀ (store : SessionStore) (body : PatchBody) (session : TWAPSession)
        (now : Int) (h : String),
      body.sessionId ≠ "" →
      body.action = "confirm_deposit" →
      getSession store body.sessionId = some session →
      ownershipDenied body.userAddress session = false →
      body.txHash = some h → h ≠ "" → isValidTxHash h = true →
      session.status = SessionStatus.awaiting_deposit →
      ∃ u, (patchSession store body now).http = 200 ∧
        (patchSession store body now).body = some u ∧
        u.depositConfirmed = true ∧ u.startedAt = some now ∧
        u.nextTradeAt = some now ∧ u.status = SessionStatus.active ∧
        u.depositTxHash = some h ∧
        getSession (patchSession store body now).store body.sessionId = some u) ∧
    (∀ (store : SessionStore) (body : PatchBody) (session : TWAPSession)
        (now : Int),
      body.action = "confirm_deposit" →
      getSession store body.sessionId = some session →
      session.status ≠ SessionStatus.awaiting_deposit →
      (patchSession store body now).http ≠ 200 ∧
        (patchSession store body now).store = store) ∧
    (∀ (store : SessionStore) (body : PatchBody) (session : TWAPSession)
        (now : Int),
      (body.action = "pause" ∨ body.action = "resume") →
      getSession store body.sessionId = some session →
      session.status = SessionStatus.awaiting_deposit →
      (patchSession store body now).http ≠ 200 ∧
        (patchSession store body now).store = store) ∧
    (∀ (session : TWAPSession) (trade : TradeRecord) (now : Int),
      session.status = SessionStatus.awaiting_deposit →
      (recordTradeUpdate session trade now).status ≠ SessionStatus.active) ∧
    (∀ (store : SessionStore) (sid : String) (t : TWAPSession),
      t ∈ deleteSession store sid → t.status = SessionStatus.active →
      t ∈ store) ∧
    (∀ (store : SessionStore) (now : Int) (t : TWAPSession),
      t ∈ (cleanupExpiredSessions store now).2 → t.status = SessionStatus.active →
      t ∈ store) := by
  refine ⟨?_, ?_, ?_, ?_, ?_, ?_⟩
  · intro store body session now h hsid ha hg how hth hne hvalid hst
    have h1 : (body.sessionId == "") = false := beq_false_of_ne hsid
    have hact : (body.action == "confirm_deposit") = true := by simp [ha]
    have hstb : (session.status == SessionStatus.awaiting_deposit) = true := by
      simp [hst]
    have hpatch : patchSession store body now =
        ⟨200,
         (confirmDeposit store body.sessionId h
           (match body.amount with
            | some a => if a == 0 then session.totalAmount else a
            | none => session.totalAmount) now).1,
         (confirmDeposit store body.sessionId h
           (match body.amount with
            | some a => if a == 0 then session.totalAmount else a
            | none => session.totalAmount) now).2⟩ := by
      simp [patchSession, h1, hg, how, hact, hth, hvalid, hstb, jsTruthyStr,
        beq_false_of_ne hne]
    obtain ⟨hu1, hu2⟩ := confirmDeposit_spec store body.sessionId h
      (match body.amount with
       | some a => if a == 0 then session.totalAmount else a
       | none => session.totalAmount) now session hg
    refine ⟨{ session with
        depositTxHash := some h
        depositedAmount :=
          match body.amount with
          | some a => if a == 0 then session.totalAmount else a
          | none => session.totalAmount
        depositConfirmed := true
        status := SessionStatus.active
        startedAt := some now
        nextTradeAt := some now }, ?_, ?_, rfl, rfl, rfl, rfl, rfl, ?_⟩
    · rw [hpatch]
    · rw [hpatch]
      exact hu1
    · rw [hpatch]
      exact hu2
  · intro store body session now ha hg hst
    simp only [patchSession, hg]
    split_ifs <;> simp_all
  · intro store body session now ha hg hst
    rcases ha with ha | ha <;>
      · simp only [patchSession, hg, ha]
        split_ifs <;> simp_all
  · intro session trade now hst
    unfold recordTradeUpdate
    cases htr : trade.status <;> simp [hst] <;> split <;> simp [hst]
  · intro store sid t hmem hact
    unfold deleteSession updateSession at hmem
    obtain ⟨s, hsmem, hmap⟩ := List.mem_map.mp hmem
    by_cases h : s.id = sid
    · rw [if_pos h] at hmap
      rw [← hmap] at hact
      simp at hact
    · rw [if_neg h] at hmap
      rw [← hmap]
      exact hsmem
  · intro store now t hmem hact
    unfold cleanupExpiredSessions at hmem
    obtain ⟨s, hsmem, hmap⟩ := List.mem_map.mp hmem
    by_cases h : isExpiredSweepTarget now s = true
    · rw [if_pos h] at hmap
      rw [← hmap] at hact
      simp at hact
    · rw [if_neg h] at hmap
      rw [← hmap]
      exact hsmem

/-- Witness for C4: confirming the deposit of the concrete awaiting
session with a valid tx hash succeeds and activates it. -/
theorem C4_confirm_deposit_transition_witness :
    sampleAwaiting.status = SessionStatus.awaiting_deposit ∧
    isValidTxHash sampleTxHash = true ∧
    ∃ u : TWAPSession, (patchSession [sampleAwaiting]
        ⟨"sid-2", "confirm_deposit", some sampleTxHash, some 5, some ("0xabc1")⟩
        50).http = 200 ∧
      u.status = SessionStatus.active ∧ u.nextTradeAt = some 50 := by
  refine ⟨rfl, by decide, ?_⟩
  obtain ⟨u, h1, h2, h3, h4, h5, h6, h7, h8⟩ :=
    C4_confirm_deposit_transition.1 [sampleAwaiting]
      ⟨"sid-2", "confirm_deposit", some sampleTxHash, some 5, some ("0xabc1")⟩
      sampleAwaiting 50 sampleTxHash (by decide) rfl (by decide) (by decide) rfl
      (by decide) (by decide) rfl
  exact ⟨u, h1, h6, h5⟩

/-- The sweep predicate of the claim, spelled as a proposition. -/
def expiredNonTerminal (now : Int) (s : TWAPSession) : Prop :=
  s.expiresAt < now ∧ s.status ≠ SessionStatus.completed ∧
    s.status ≠ SessionStatus.failed ∧ s.status ≠ SessionStatus.cancelled

instance (now : Int) (s : TWAPSession) : Decidable (expiredNonTerminal now s) := by
  unfold expiredNonTerminal
  infer_instance

/-- The code's sweep predicate agrees with the claim's. -/
theorem isExpiredSweepTarget_iff (now : Int) (s : TWAPSession) :
    isExpiredSweepTarget now s = true ↔ expiredNonTerminal now s := by
  simp [isExpiredSweepTarget, expiredNonTerminal]
  tauto

/-- C5: the expiration sweep marks failed (with
`lastError = "Session expired"`) exactly the sessions past `expiresAt`
whose status is not already completed, failed, or cancelled, returns the
number of sessions affected, and is idempotent: run again on its own
output without time passing it affects zero sessions. -/
theorem C5_cleanupExpiredSessions_exact (store : SessionStore) (now : Int) :
    (cleanupExpiredSessions store now).2 =
      store.map (fun s =>
        if expiredNonTerminal now s then
          { s with status := SessionStatus.failed, lastError := some ("Session expired") }
        else s) ∧
    (cleanupExpiredSessions store now).1 =
      (store.filter (fun s => decide (expiredNonTerminal now s))).length ∧
    (cleanupExpiredSessions (cleanupExpiredSessions store now).2 now).1 = 0 := by
  have hpt : ∀ s, isExpiredSweepTarget now s = decide (expiredNonTerminal now s) := by
    intro s
    by_cases h : expiredNonTerminal now s
    · rw [(isExpiredSweepTarget_iff now s).mpr h]
      simp [h]
    · have hb : isExpiredSweepTarget now s = false := by
        rcases hb2 : isExpiredSweepTarget now s with _ | _
        · rfl
        · exact absurd ((isExpiredSweepTarget_iff now s).mp hb2) h
      rw [hb]
      simp [h]
  refine ⟨?_, ?_, ?_⟩
  · show store.map _ = store.map _
    congr 1
    funext s
    rw [hpt s]
    by_cases h : expiredNonTerminal now s <;> simp [h]
  · show store.countP _ = _
    rw [← List.countP_eq_length_filter]
    congr 1
    funext s
    rw [hpt s]
  · show List.countP _ (store.map _) = 0
    rw [List.countP_eq_zero]
    intro t ht
    obtain ⟨s, hs, rfl⟩ := List.mem_map.mp ht
    by_cases h : isExpiredSweepTarget now s = true
    · rw [if_pos h]
      simp [isExpiredSweepTarget]
    · rw [if_neg h]
      exact h

/-- A concrete active session that is already past its expiry. -/
def sampleExpired : TWAPSession :=
  { sampleActive with id := "sid-3", expiresAt := 10 }

/-- Witness for C5: sweeping a store holding one expired active session
and sweeping again immediately affects zero sessions the second time. -/
theorem C5_cleanupExpiredSessions_exact_witness :
    (cleanupExpiredSessions [sampleExpired] 100).1 = 1 ∧
    (cleanupExpiredSessions (cleanupExpiredSessions [sampleExpired] 100).2 100).1 = 0 := by
  constructor
  · decide
  · exact (C5_cleanupExpiredSessions_exact [sampleExpired] 100).2.2

/-- C6 counterexample: the ownership guard is skipped when the caller
supplies no `userAddress`, so a caller who is not the owner (here: one
claiming no address at all on a session owned by `0xAbC1`) cancels the
session — the DELETE returns 200 and the stored session becomes
cancelled, refuting the claim that a non-owner can never cancel another
user's session. -/
theorem C6_owner_only_counterexample :
    (deleteSessionHandler [sampleActive] (some ("sid-1")) none).http = 200 ∧
    ((deleteSessionHandler [sampleActive] (some ("sid-1")) none).store.map
      TWAPSession.status) = [SessionStatus.cancelled] ∧
    sampleActive.userAddress = "0xAbC1" := by
  decide

/-- C6 amended: when the caller supplies a non-empty `userAddress` that
does not match the session's owner case-insensitively, both DELETE
(cancel) and PATCH (deposit-confirmation/pause/resume) reject with a 403
forbidden response and leave the store unchanged; the guard is skipped
when `userAddress` is absent or empty. -/
theorem C6_owner_mismatch_rejected :
    (∀ (store : SessionStore) (sid addr : String) (session : TWAPSession),
      sid ≠ "" →
      getSession store sid = some session →
      addr ≠ "" →
      lowerAscii session.userAddress ≠ lowerAscii addr →
      deleteSessionHandler store (some sid) (some addr) = ⟨403, none, store⟩) ∧
    (∀ (store : SessionStore) (body : PatchBody) (addr : String)
        (session : TWAPSession) (now : Int),
      body.sessionId ≠ "" →
      getSession store body.sessionId = some session →
      body.userAddress = some addr →
      addr ≠ "" →
      lowerAscii session.userAddress ≠ lowerAscii addr →
      patchSession store body now = ⟨403, none, store⟩) := by
  have hdeny : ∀ (addr : String) (session : TWAPSession), addr ≠ "" →
      lowerAscii session.userAddress ≠ lowerAscii addr →
      ownershipDenied (some addr) session = true := by
    intro addr session hne hmm
    simp [ownershipDenied, beq_false_of_ne hne, hmm]
  constructor
  · intro store sid addr session hsid hg hne hmm
    have hjs : jsTruthyStr (some sid) = true := by
      simp [jsTruthyStr, beq_false_of_ne hsid]
    simp [deleteSessionHandler, hjs, hg, hdeny addr session hne hmm]
  · intro store body addr session now hsid hg haddr hne hmm
    have h1 : (body.sessionId == "") = false := beq_false_of_ne hsid
    simp [patchSession, h1, hg, haddr, hdeny addr session hne hmm]

/-- Witness for C6 amended: a caller claiming a different address gets a
403 from both handlers and the store is untouched. -/
theorem C6_owner_mismatch_rejected_witness :
    deleteSessionHandler [sampleActive] (some ("sid-1")) (some ("0xEvil")) =
      ⟨403, none, [sampleActive]⟩ ∧
    patchSession [sampleActive] ⟨"sid-1", "pause", none, none, some ("0xEvil")⟩ 0 =
      ⟨403, none, [sampleActive]⟩ := by
  constructor
  · exact C6_owner_mismatch_rejected.1 [sampleActive] ("sid-1") ("0xEvil")
      sampleActive (by decide) (by decide) (by decide) (by decide)
  · exact C6_owner_mismatch_rejected.2 [sampleActive]
      ⟨"sid-1", "pause", none, none, some ("0xEvil")⟩ ("0xEvil") sampleActive 0
      (by decide) (by decide) rfl (by decide) (by decide)

/-- Creation parameters of the C7 counterexample session. -/
def c7Params : CreateSessionParams := ⟨"0xAbC1", 5, 5, 1, some 100⟩

/-- Store after creating the C7 session at time 0. -/
def c7Store0 : SessionStore := [createSession c7Params 0 ("sid-7")]

/-- Store after confirming its deposit at time 1000 (sets
`nextTradeAt = 1000`). -/
def c7Store1 : SessionStore :=
  (confirmDeposit c7Store0 ("sid-7") sampleTxHash 5 1000).2

/-- C7 counterexample: a session reached through
createSession → confirmDeposit → deleteSession ends cancelled (terminal)
with `nextTradeAt` still `1000`, and an expired active session swept by
`cleanupExpiredSessions` ends failed with `nextTradeAt` still `500`;
both refute the claimed invariant that a terminal status forces a null
`nextTradeAt`. -/
theorem C7_nextTradeAt_iff_counterexample :
    ((deleteSession c7Store1 ("sid-7")).map
      (fun s => (s.status, s.nextTradeAt))) =
        [(SessionStatus.cancelled, some 1000)] ∧
    (((cleanupExpiredSessions [sampleExpired] 100).2).map
      (fun s => (s.status, s.nextTradeAt))) =
        [(SessionStatus.failed, some 500)] := by
  decide

/-- C7 amended: `nextTradeAt` is null at creation (status
awaiting_deposit), and a successful trade either completes the session
with `nextTradeAt = null` or reschedules a non-null `nextTradeAt`; but
cancellation and the expiration sweep change only status (and
`lastError`) and preserve every session's `nextTradeAt`, so cancelled and
failed sessions can retain a stale non-null value — they are excluded
from execution by the status filter of `getActiveSessionsForExecution`,
not by a null `nextTradeAt`. -/
theorem C7_nextTradeAt_amended :
    (∀ (params : CreateSessionParams) (now : Int) (newId : String),
      (createSession params now newId).status = SessionStatus.awaiting_deposit ∧
      (createSession params now newId).nextTradeAt = none) ∧
    (∀ (session : TWAPSession) (trade : TradeRecord) (now : Int),
      trade.status = TradeStatus.success →
      (session.numTrades ≤ session.tradesCompleted + 1 →
        (recordTradeUpdate session trade now).status = SessionStatus.completed ∧
        (recordTradeUpdate session trade now).nextTradeAt = none) ∧
      (session.tradesCompleted + 1 < session.numTrades →
        (recordTradeUpdate session trade now).status = session.status ∧
        (recordTradeUpdate session trade now).nextTradeAt ≠ none)) ∧
    (∀ (store : SessionStore) (sid : String),
      (deleteSession store sid).map TWAPSession.nextTradeAt =
        store.map TWAPSession.nextTradeAt) ∧
    (∀ (store : SessionStore) (now : Int),
      ((cleanupExpiredSessions store now).2).map TWAPSession.nextTradeAt =
        store.map TWAPSession.nextTradeAt) ∧
    (∀ (store : SessionStore) (now : Int) (s : TWAPSession),
      s.status ≠ SessionStatus.active →
      s ∉ getActiveSessionsForExecution store now) := by
  refine ⟨fun params now newId => ⟨rfl, rfl⟩, ?_, ?_, ?_, ?_⟩
  · intro session trade now htr
    simp only [recordTradeUpdate, htr]
    constructor
    · intro hdone
      rw [if_pos hdone]
      exact ⟨rfl, rfl⟩
    · intro hleft
      rw [if_neg (by omega)]
      exact ⟨rfl, by simp⟩
  · intro store sid
    unfold deleteSession updateSession
    rw [List.map_map]
    congr 1
    funext s
    by_cases h : s.id = sid <;> simp [h]
  · intro store now
    unfold cleanupExpiredSessions
    rw [List.map_map]
    congr 1
    funext s
    by_cases h : isExpiredSweepTarget now s = true <;> simp [h]
  · intro store now s hst hmem
    have hdue := (List.mem_filter.mp hmem).2
    unfold dueForExecution at hdue
    simp only [Bool.and_eq_true, beq_iff_eq] at hdue
    exact hst hdue.1.1.1.1

/-- Witness for C7 amended: the final success trade on a session with 4
of 5 trades done completes it with a null `nextTradeAt`, and a cancelled
session with a stale due time is not picked up by the scan. -/
theorem C7_nextTradeAt_amended_witness :
    (recordTradeUpdate { sampleActive with tradesCompleted := 4 }
        sampleSuccessTrade 600).nextTradeAt = none ∧
    { sampleActive with status := SessionStatus.cancelled } ∉
      getActiveSessionsForExecution
        [{ sampleActive with status := SessionStatus.cancelled }] 1000 := by
  constructor
  · exact ((C7_nextTradeAt_amended.2.1
      { sampleActive with tradesCompleted := 4 } sampleSuccessTrade 600
      (by decide)).1 (by decide)).2
  · exact C7_nextTradeAt_amended.2.2.2.2
      [{ sampleActive with status := SessionStatus.cancelled }] 1000
      { sampleActive with status := SessionStatus.cancelled } (by decide)

/-- A session of the given user (case-insensitively) that is in
`active` or `awaiting_deposit`, i.e. one that blocks creating another. -/
def userBlocking (addr : String) (s : TWAPSession) : Bool :=
  (lowerAscii s.userAddress == lowerAscii addr) && blocksNewSession s

/-- C8: if the requesting user already has a session in `awaiting_deposit`
or `active`, the creation endpoint returns that existing session and
leaves the store unchanged; otherwise it creates and inserts a fresh
session in status `awaiting_deposit`; consequently the count of
awaiting-or-active sessions of one user never grows beyond one through
session creation. -/
theorem C8_single_active_session_per_user :
    (∀ (store : SessionStore) (p : CreateSessionParams) (now : Int)
        (newId : String) (s : TWAPSession),
      s ∈ store → userBlocking p.userAddress s = true →
      (postSession store p now newId).existing = true ∧
      (postSession store p now newId).store = store ∧
      (postSession store p now newId).session ∈ store ∧
      userBlocking p.userAddress (postSession store p now newId).session = true) ∧
    (∀ (store : SessionStore) (p : CreateSessionParams) (now : Int)
        (newId : String),
      (∀ s ∈ store, userBlocking p.userAddress s = false) →
      postSession store p now newId =
        ⟨false, createSession p now newId, store ++ [createSession p now newId]⟩ ∧
      (createSession p now newId).status = SessionStatus.awaiting_deposit) ∧
    (∀ (store : SessionStore) (p : CreateSessionParams) (now : Int)
        (newId : String),
      store.countP (userBlocking p.userAddress) ≤ 1 →
      ((postSession store p now newId).store.countP
        (userBlocking p.userAddress)) ≤ 1) := by
  refine ⟨?_, ?_, ?_⟩
  · intro store p now newId s hs hblock
    have hblock2 : (lowerAscii s.userAddress == lowerAscii p.userAddress) = true ∧
        blocksNewSession s = true := by
      have hb := hblock
      unfold userBlocking at hb
      simpa using hb
    obtain ⟨hmatch, hblk⟩ := hblock2
    have hmemf : s ∈ getSessionsByUser store p.userAddress :=
      List.mem_filter.mpr ⟨hs, hmatch⟩
    have hsome : ((getSessionsByUser store p.userAddress).find?
        blocksNewSession).isSome := by
      rw [List.find?_isSome]
      exact ⟨s, hmemf, hblk⟩
    obtain ⟨t, ht⟩ := Option.isSome_iff_exists.mp hsome
    have htm := List.mem_of_find?_eq_some ht
    have htb := List.find?_some ht
    have htm2 : t ∈ store := (List.mem_filter.mp htm).1
    have htu := (List.mem_filter.mp htm).2
    unfold postSession
    rw [ht]
    refine ⟨rfl, rfl, htm2, ?_⟩
    unfold userBlocking
    rw [htu, htb]
    rfl
  · intro store p now newId hall
    have hnone : (getSessionsByUser store p.userAddress).find?
        blocksNewSession = none := by
      rw [List.find?_eq_none]
      intro x hx
      obtain ⟨hx1, hx2⟩ := List.mem_filter.mp hx
      have hxf := hall x hx1
      unfold userBlocking at hxf
      rw [hx2] at hxf
      simpa using hxf
    unfold postSession
    rw [hnone]
    exact ⟨rfl, rfl⟩
  · intro store p now newId hle
    unfold postSession
    cases hf : (getSessionsByUser store p.userAddress).find?
        blocksNewSession with
    | some t => simpa using hle
    | none =>
      have h0 : store.countP (userBlocking p.userAddress) = 0 := by
        rw [List.countP_eq_zero]
        intro x hx
        by_cases hm : (lowerAscii x.userAddress == lowerAscii p.userAddress) = true
        · have hxf : x ∈ getSessionsByUser store p.userAddress :=
            List.mem_filter.mpr ⟨hx, hm⟩
          have hnb := List.find?_eq_none.mp hf x hxf
          unfold userBlocking
          rw [hm]
          simpa using hnb
        · unfold userBlocking
          simp only [Bool.and_eq_true, not_and]
          intro hc
          exact absurd hc hm
      show (store ++ [createSession p now newId]).countP _ ≤ 1
      rw [List.countP_append, h0]
      cases hb : userBlocking p.userAddress (createSession p now newId) <;>
        simp [List.countP_cons, hb]

/-- Witness for C8: a user who already has an awaiting_deposit session
(matched case-insensitively) gets that session back and the store does
not grow. -/
theorem C8_single_active_session_per_user_witness :
    userBlocking ("0xabc1") sampleAwaiting = true ∧
    (postSession [sampleAwaiting] ⟨"0xabc1", 5, 5, 1, some 100⟩ 0 ("sid-9")).existing
      = true ∧
    (postSession [sampleAwaiting] ⟨"0xabc1", 5, 5, 1, some 100⟩ 0 ("sid-9")).store
      = [sampleAwaiting] := by
  refine ⟨by decide, ?_, ?_⟩
  · exact (C8_single_active_session_per_user.1 [sampleAwaiting]
      ⟨"0xabc1", 5, 5, 1, some 100⟩ 0 ("sid-9") sampleAwaiting (by decide)
      (by decide)).1
  · exact (C8_single_active_session_per_user.1 [sampleAwaiting]
      ⟨"0xabc1", 5, 5, 1, some 100⟩ 0 ("sid-9") sampleAwaiting (by decide)
      (by decide)).2.1

/-- C9: on a successful swap, the amount handed to the user-transfer leg
is exactly `0.999` times the quoted output, the remaining `0.1%` of the
quote stays with the executor, while the `amountOut` recorded on the
trade — and hence the amount added to `totalMoveReceived` by
`recordTrade` — is the full quoted output, which differs from the
transferred amount whenever the quote is positive. -/
theorem C9_transfer_margin (q : Nat) (swapH transferH : String)
    (session : TWAPSession) (now : Int) :
    (executeSwap q swapH transferH).1 =
      (999 / 1000 : Rat) * ((q : Rat) / 100000000) ∧
    (executeSwap q swapH transferH).2.moveReceived = (q : Rat) / 100000000 ∧
    ((q : Rat) / 100000000) - (executeSwap q swapH transferH).1 =
      (1 / 1000 : Rat) * ((q : Rat) / 100000000) ∧
    (executeTradeSuccessRecord session (executeSwap q swapH transferH).2
        now).amountOut =
      (executeSwap q swapH transferH).2.moveReceived ∧
    (recordTradeUpdate session
        (executeTradeSuccessRecord session (executeSwap q swapH transferH).2 now)
        now).totalMoveReceived =
      session.totalMoveReceived + (q : Rat) / 100000000 ∧
    (0 < q →
      (executeSwap q swapH transferH).1 ≠
        (executeSwap q swapH transferH).2.moveReceived) := by
  refine ⟨?_, rfl, ?_, rfl, ?_, ?_⟩
  · show ((q : Rat) / 100000000) * (999 / 1000) = _
    ring
  · show ((q : Rat) / 100000000) - ((q : Rat) / 100000000) * (999 / 1000) = _
    ring
  · simp only [recordTradeUpdate, executeTradeSuccessRecord, executeSwap]
    split <;> rfl
  · intro hq heq
    have hx : ((q : Rat) / 100000000) ≠ 0 := by
      have hq2 : (0 : Rat) < (q : Rat) := by exact_mod_cast hq
      positivity
    have heq2 : ((q : Rat) / 100000000) * (999 / 1000) =
        ((q : Rat) / 100000000) * 1 := by
      rw [mul_one]
      exact heq
    have := mul_left_cancel₀ hx heq2
    norm_num at this

/-- Witness for C9: with a quoted raw output of `10^8` (one MOVE), the
transfer leg gets `0.999` MOVE while `moveReceived` is the full `1`. -/
theorem C9_transfer_margin_witness :
    (executeSwap 100000000 ("0xs") ("0xt")).1 = 999 / 1000 ∧
    (executeSwap 100000000 ("0xs") ("0xt")).2.moveReceived = 1 ∧
    (executeSwap 100000000 ("0xs") ("0xt")).1 ≠
      (executeSwap 100000000 ("0xs") ("0xt")).2.moveReceived := by
  have h := C9_transfer_margin 100000000 ("0xs") ("0xt") sampleActive 0
  refine ⟨?_, ?_, h.2.2.2.2.2 (by norm_num)⟩
  · rw [h.1]
    norm_num
  · rw [h.2.1]
    norm_num

/-- C10: the PATCH pause and resume actions mutate only the session
object fetched for the response and never write the store: the store
after the call is exactly the store before, so a later `getSession` and
the scheduler's due-session scan observe the pre-pause/pre-resume state;
in the successful pause case the response carries a `paused` copy while
the persisted session still has its old status. -/
theorem C10_pause_resume_not_persisted :
    (∀ (store : SessionStore) (body : PatchBody) (now : Int),
      (body.action = "pause" ∨ body.action = "resume") →
      (patchSession store body now).store = store) ∧
    (∀ (store : SessionStore) (body : PatchBody) (now : Int) (sid : String),
      (body.action = "pause" ∨ body.action = "resume") →
      getSession ((patchSession store body now).store) sid =
        getSession store sid) ∧
    (∀ (store : SessionStore) (body : PatchBody) (now t : Int),
      (body.action = "pause" ∨ body.action = "resume") →
      getActiveSessionsForExecution ((patchSession store body now).store) t =
        getActiveSessionsForExecution store t) ∧
    (∀ (store : SessionStore) (body : PatchBody) (session : TWAPSession)
        (now : Int),
      body.sessionId ≠ "" →
      getSession store body.sessionId = some session →
      ownershipDenied body.userAddress session = false →
      body.action = "pause" →
      session.status = SessionStatus.active →
      (patchSession store body now).http = 200 ∧
      (patchSession store body now).body =
        some { session with status := SessionStatus.paused } ∧
      getSession ((patchSession store body now).store) body.sessionId =
        some session) := by
  have hpc : (("pause" : String) == "confirm_deposit") = false := by decide
  have hrc : (("resume" : String) == "confirm_deposit") = false := by decide
  have hpp : (("pause" : String) == "pause") = true := by decide
  have hrp : (("resume" : String) == "pause") = false := by decide
  have hrr : (("resume" : String) == "resume") = true := by decide
  have hstore : ∀ (store : SessionStore) (body : PatchBody) (now : Int),
      (body.action = "pause" ∨ body.action = "resume") →
      (patchSession store body now).store = store := by
    intro store body now ha
    rcases ha with ha | ha <;>
    · cases hg : getSession store body.sessionId with
      | none =>
        simp only [patchSession, ha, hg, hpc, hrc, hpp, hrp, hrr]
        split_ifs <;> rfl
      | some session =>
        simp only [patchSession, ha, hg, hpc, hrc, hpp, hrp, hrr]
        split_ifs <;> simp_all
  refine ⟨hstore, ?_, ?_, ?_⟩
  · intro store body now sid ha
    rw [hstore store body now ha]
  · intro store body now t ha
    rw [hstore store body now ha]
  · intro store body session now hsid hg how ha hst
    have h1 : (body.sessionId == "") = false := beq_false_of_ne hsid
    have hstb : (session.status == SessionStatus.active) = true := by simp [hst]
    refine ⟨?_, ?_, ?_⟩
    · simp [patchSession, h1, hg, how, ha, hstb, hpc, hpp]
    · simp [patchSession, h1, hg, how, ha, hstb, hpc, hpp]
    · rw [hstore store body now (Or.inl ha), hg]

/-- Witness for C10: pausing the concrete active session returns 200 with
a paused copy, yet the stored session is still active. -/
theorem C10_pause_resume_not_persisted_witness :
    (patchSession [sampleActive] ⟨"sid-1", "pause", none, none, none⟩ 0).http
      = 200 ∧
    (patchSession [sampleActive] ⟨"sid-1", "pause", none, none, none⟩ 0).body
      = some { sampleActive with status := SessionStatus.paused } ∧
    getSession ((patchSession [sampleActive]
      ⟨"sid-1", "pause", none, none, none⟩ 0).store) ("sid-1")
      = some sampleActive ∧
    sampleActive.status = SessionStatus.active := by
  obtain ⟨h1, h2, h3⟩ :=
    C10_pause_resume_not_persisted.2.2.2 [sampleActive]
      ⟨"sid-1", "pause", none, none, none⟩ sampleActive 0
      (by decide) (by decide) (by decide) rfl rfl
  exact ⟨h1, h2, h3, rfl⟩

end MABuybacks
